import Mathlib

/-!
Verification development for the chain message handler of the repository
(package handler, file modelled from src/unnamed/part_001). The handler sits
between the network layer and a replaceable consensus engine. We give a
shallow embedding of its data model and dispatch functions and prove the
specified properties about them. Concurrency (the consensus lock, goroutine
scheduling) is modelled by explicit sequential state passing: every dispatch
function takes the {EngineType, EngineLifecycleState} snapshot it reads under
the lock as an argument, and engine methods are modelled as a behaviour
function mapping an engine reference and a call descriptor to an optional
error, since engines are external black boxes behind a capability interface.
-/

namespace Handler

/-- EngineType mirrors p2p.EngineType: UNSPECIFIED, AVALANCHE, SNOWMAN, plus
a catch-all constructor for invalid values a peer may put on the wire. -/
inductive EngineType where
  | unspecified
  | avalanche
  | snowman
  | other (n : Nat)
deriving DecidableEq, Repr

/-- SnowState mirrors snow.State, the engine lifecycle state of a chain. -/
inductive SnowState where
  | stateSyncing
  | bootstrapping
  | normalOp
deriving DecidableEq, Repr

/-- EngineState mirrors snow.EngineState: the pair {Type, State} read from
ConsensusContext.State.Get(). The Go field named Type is rendered engineType
because Type is reserved in Lean. -/
structure EngineState where
  engineType : EngineType
  state : SnowState
deriving DecidableEq, Repr

/-- EngineRef is an opaque reference to a concrete engine instance. Engines
are external collaborators; only their identity matters to the handler. -/
structure EngineRef where
  refId : Nat
deriving DecidableEq, Repr

/-- Modelled from the spec: the EngineManager maps EngineType to a set of
engines keyed by EngineLifecycleState (StateSyncer, Bootstrapper, NormalOp
engine). The registry type itself is repository code not present in src/;
this structure holds the per-type engine set. -/
structure Engines where
  stateSyncer : Option EngineRef
  bootstrapper : Option EngineRef
  consensus : Option EngineRef
deriving DecidableEq, Repr

/-- Modelled from the spec: lookup of the engine registered for a lifecycle
state inside a per-type engine set. The argument is an Option because the Go
receiver may be nil (no set registered for the type), in which case the
lookup reports not-ok. -/
def Engines.get : Option Engines → SnowState → Option EngineRef
  | none, _ => none
  | some e, SnowState.stateSyncing => e.stateSyncer
  | some e, SnowState.bootstrapping => e.bootstrapper
  | some e, SnowState.normalOp => e.consensus

/-- Modelled from the spec: the EngineManager registry, one optional engine
set per concrete engine type. -/
structure EngineManager where
  avalanche : Option Engines
  snowman : Option Engines
deriving DecidableEq, Repr

/-- Modelled from the spec: EngineManager lookup by engine type; unspecified
or invalid types have no engine set. -/
def EngineManager.get (em : EngineManager) : EngineType → Option Engines
  | EngineType.avalanche => em.avalanche
  | EngineType.snowman => em.snowman
  | _ => none

/-- Handler level errors. missingEngine wraps errMissingEngine together with
the lifecycle state and engine type named in the formatted message;
noStartingGear is errNoStartingGear; unhandledOp is the default-case error of
the dispatch type switches; engineFailure stands for an opaque error returned
by an engine method. -/
inductive HandlerErr where
  | missingEngine (state : SnowState) (engineType : EngineType)
  | noStartingGear
  | unhandledOp
  | engineFailure (code : Nat)
deriving DecidableEq, Repr

/-- MessageOp mirrors message.Op, the operation kind of a message. -/
inductive MessageOp where
  | getStateSummaryFrontierOp
  | stateSummaryFrontierOp
  | getStateSummaryFrontierFailedOp
  | getAcceptedStateSummaryOp
  | acceptedStateSummaryOp
  | getAcceptedStateSummaryFailedOp
  | getAcceptedFrontierOp
  | acceptedFrontierOp
  | getAcceptedFrontierFailedOp
  | getAcceptedOp
  | acceptedOp
  | getAcceptedFailedOp
  | getAncestorsOp
  | ancestorsOp
  | getAncestorsFailedOp
  | getOp
  | getFailedOp
  | putOp
  | pushQueryOp
  | pullQueryOp
  | chitsOp
  | queryFailedOp
  | connectedOp
  | connectedSubnetOp
  | disconnectedOp
  | gossipRequestOp
  | timeoutOp
  | vmMessageOp
  | appRequestOp
  | appRequestFailedOp
  | appResponseOp
  | appGossipOp
  | crossChainAppRequestOp
  | crossChainAppRequestFailedOp
  | crossChainAppResponseOp
deriving DecidableEq, Repr

/-- SyncBody is the payload of a synchronous message, one constructor per
case of the handleSyncMsg type switch. Fields of Option type model the result
of decoding or validating the corresponding wire field (getIDs or ids.ToID):
some means decoding succeeded with the given value, none means it failed.
Opaque byte payloads are modelled as Nat. -/
inductive SyncBody where
  | getStateSummaryFrontier (requestId : Nat)
  | stateSummaryFrontier (requestId : Nat) (summary : Nat)
  | getStateSummaryFrontierFailed (requestId : Nat)
  | getAcceptedStateSummary (requestId : Nat) (heights : List Nat)
  | acceptedStateSummary (requestId : Nat) (summaryIds : Option (List Nat))
  | getAcceptedStateSummaryFailed (requestId : Nat)
  | getAcceptedFrontier (requestId : Nat)
  | acceptedFrontier (requestId : Nat) (containerIds : Option (List Nat))
  | getAcceptedFrontierFailed (requestId : Nat)
  | getAccepted (requestId : Nat) (containerIds : Option (List Nat))
  | accepted (requestId : Nat) (containerIds : Option (List Nat))
  | getAcceptedFailed (requestId : Nat)
  | getAncestors (requestId : Nat) (containerId : Option Nat)
  | getAncestorsFailed (requestId : Nat)
  | ancestors (requestId : Nat)
  | get (requestId : Nat) (containerId : Option Nat)
  | getFailed (requestId : Nat)
  | put (requestId : Nat) (container : Nat)
  | pushQuery (requestId : Nat) (container : Nat)
  | pullQuery (requestId : Nat) (containerId : Option Nat)
  | chits (requestId : Nat) (preferredIds acceptedIds : Option (List Nat))
  | queryFailed (requestId : Nat)
  | connected
  | connectedSubnet (subnetId : Nat)
  | disconnected
  | unknown
deriving DecidableEq, Repr

/-- Message mirrors the handler Message envelope: origin node, an identity
for its completion callback, operation kind, absolute expiration deadline,
requested engine type, and payload. -/
structure Msg where
  nodeID : Nat
  msgId : Nat
  op : MessageOp
  expiration : Nat
  engineType : EngineType
  body : SyncBody
deriving DecidableEq, Repr

/-- PushState holds the two message queues owned by the handler. Enqueueing
is modelled as appending to the corresponding list. -/
structure PushState where
  syncQueue : List Msg
  asyncQueue : List Msg
deriving DecidableEq, Repr

/-- isAsyncOp is the case list of the Push switch: the seven application
message kinds are asynchronous, everything else is synchronous. -/
def isAsyncOp : MessageOp → Bool
  | MessageOp.appRequestOp => true
  | MessageOp.appRequestFailedOp => true
  | MessageOp.appResponseOp => true
  | MessageOp.appGossipOp => true
  | MessageOp.crossChainAppRequestOp => true
  | MessageOp.crossChainAppRequestFailedOp => true
  | MessageOp.crossChainAppResponseOp => true
  | _ => false

/-- Push mirrors handler.Push lines 270 to 278: route the message to the
async queue when its operation kind is in the async case list, otherwise to
the sync queue. -/
def Push (s : PushState) (m : Msg) : PushState :=
  if isAsyncOp m.op then
    { s with asyncQueue := s.asyncQueue ++ [m] }
  else
    { s with syncQueue := s.syncQueue ++ [m] }

/-- EngineCall is a descriptor of one engine method invocation, one
constructor per method of the capability interface used by the dispatch
paths. -/
inductive EngineCall where
  | getStateSummaryFrontier (requestId : Nat)
  | stateSummaryFrontier (requestId : Nat) (summary : Nat)
  | getStateSummaryFrontierFailed (requestId : Nat)
  | getAcceptedStateSummary (requestId : Nat) (heights : List Nat)
  | acceptedStateSummary (requestId : Nat) (summaryIds : List Nat)
  | getAcceptedStateSummaryFailed (requestId : Nat)
  | getAcceptedFrontier (requestId : Nat)
  | acceptedFrontier (requestId : Nat) (containerIds : List Nat)
  | getAcceptedFrontierFailed (requestId : Nat)
  | getAccepted (requestId : Nat) (containerIds : List Nat)
  | accepted (requestId : Nat) (containerIds : List Nat)
  | getAcceptedFailed (requestId : Nat)
  | getAncestors (requestId : Nat) (containerId : Nat)
  | getAncestorsFailed (requestId : Nat)
  | ancestors (requestId : Nat)
  | get (requestId : Nat) (containerId : Nat)
  | getFailed (requestId : Nat)
  | put (requestId : Nat) (container : Nat)
  | pushQuery (requestId : Nat) (container : Nat)
  | pullQuery (requestId : Nat) (containerId : Nat)
  | chits (requestId : Nat) (votes accepted : List Nat)
  | queryFailed (requestId : Nat)
  | connected
  | disconnected
  | appRequest (requestId : Nat)
  | appRequestFailed (requestId : Nat)
  | appResponse (requestId : Nat)
  | appGossip
  | crossChainAppRequest (sourceChainId requestId : Nat)
  | crossChainAppRequestFailed (sourceChainId requestId : Nat)
  | crossChainAppResponse (sourceChainId requestId : Nat)
  | notify (notification : Nat)
  | gossip
  | timeout
deriving DecidableEq, Repr

/-- EngineBeh models the black-box behaviour of engines: the optional error
an engine method invocation returns. -/
abbrev EngineBeh := EngineRef → EngineCall → Option HandlerErr

/-- SyncOutcome is the observable result of handleSyncMsg on one message:
dropped (return nil without invoking any engine method), an engine method
invocation, a direct SubnetConnector invocation, or the default-case error
for an unhandled operation. -/
inductive SyncOutcome where
  | dropped
  | engineCall (engine : EngineRef) (call : EngineCall)
  | subnetConnectorCall (subnetId : Nat)
  | unhandledErr
deriving DecidableEq, Repr

/-- isUnique mirrors utils.IsUnique: whether a list has no duplicates. -/
def isUnique : List Nat → Bool
  | [] => true
  | x :: xs => !xs.contains x && isUnique xs

/-- resolveEngineType is the engine-type resolution rule of handleSyncMsg
lines 476 to 505: a Snowman request on a chain whose current type is
Avalanche is dropped (none); an explicit Avalanche or Snowman request is
honored; any other requested value (unspecified or invalid) defaults to the
current type. -/
def resolveEngineType (msgType currentType : EngineType) : Option EngineType :=
  if msgType = EngineType.snowman ∧ currentType = EngineType.avalanche then
    none
  else
    some (match msgType with
      | EngineType.avalanche => EngineType.avalanche
      | EngineType.snowman => EngineType.snowman
      | _ => currentType)

/-- resolveSyncEngine composes the resolution rule with the engine lookup of
handleSyncMsg line 507: the engine registered for the resolved type and the
current lifecycle state, none when the message is dropped either by the
resolution rule or because no engine is registered for the pair. -/
def resolveSyncEngine (em : EngineManager) (cur : EngineState)
    (msgType : EngineType) : Option EngineRef :=
  match resolveEngineType msgType cur.engineType with
  | none => none
  | some t => Engines.get (em.get t) cur.state

/-- syncMsgCall is the type switch of handleSyncMsg lines 526 to 736, after
an engine has been resolved: which engine method is invoked for each payload,
with invalid-field payloads of response kinds routed to the matching failed
callback, invalid-field payloads of request kinds dropped, and unhandled
payloads producing the default-case error. -/
def syncMsgCall (engine : EngineRef) : SyncBody → SyncOutcome
  | SyncBody.getStateSummaryFrontier rid =>
      SyncOutcome.engineCall engine (EngineCall.getStateSummaryFrontier rid)
  | SyncBody.stateSummaryFrontier rid summary =>
      SyncOutcome.engineCall engine (EngineCall.stateSummaryFrontier rid summary)
  | SyncBody.getStateSummaryFrontierFailed rid =>
      SyncOutcome.engineCall engine (EngineCall.getStateSummaryFrontierFailed rid)
  | SyncBody.getAcceptedStateSummary rid heights =>
      if isUnique heights then
        SyncOutcome.engineCall engine (EngineCall.getAcceptedStateSummary rid heights)
      else
        SyncOutcome.engineCall engine (EngineCall.getAcceptedStateSummaryFailed rid)
  | SyncBody.acceptedStateSummary rid (some ids) =>
      SyncOutcome.engineCall engine (EngineCall.acceptedStateSummary rid ids)
  | SyncBody.acceptedStateSummary rid none =>
      SyncOutcome.engineCall engine (EngineCall.getAcceptedStateSummaryFailed rid)
  | SyncBody.getAcceptedStateSummaryFailed rid =>
      SyncOutcome.engineCall engine (EngineCall.getAcceptedStateSummaryFailed rid)
  | SyncBody.getAcceptedFrontier rid =>
      SyncOutcome.engineCall engine (EngineCall.getAcceptedFrontier rid)
  | SyncBody.acceptedFrontier rid (some ids) =>
      SyncOutcome.engineCall engine (EngineCall.acceptedFrontier rid ids)
  | SyncBody.acceptedFrontier rid none =>
      SyncOutcome.engineCall engine (EngineCall.getAcceptedFrontierFailed rid)
  | SyncBody.getAcceptedFrontierFailed rid =>
      SyncOutcome.engineCall engine (EngineCall.getAcceptedFrontierFailed rid)
  | SyncBody.getAccepted rid (some ids) =>
      SyncOutcome.engineCall engine (EngineCall.getAccepted rid ids)
  | SyncBody.getAccepted _ none => SyncOutcome.dropped
  | SyncBody.accepted rid (some ids) =>
      SyncOutcome.engineCall engine (EngineCall.accepted rid ids)
  | SyncBody.accepted rid none =>
      SyncOutcome.engineCall engine (EngineCall.getAcceptedFailed rid)
  | SyncBody.getAcceptedFailed rid =>
      SyncOutcome.engineCall engine (EngineCall.getAcceptedFailed rid)
  | SyncBody.getAncestors rid (some cid) =>
      SyncOutcome.engineCall engine (EngineCall.getAncestors rid cid)
  | SyncBody.getAncestors _ none => SyncOutcome.dropped
  | SyncBody.getAncestorsFailed rid =>
      SyncOutcome.engineCall engine (EngineCall.getAncestorsFailed rid)
  | SyncBody.ancestors rid =>
      SyncOutcome.engineCall engine (EngineCall.ancestors rid)
  | SyncBody.get rid (some cid) =>
      SyncOutcome.engineCall engine (EngineCall.get rid cid)
  | SyncBody.get _ none => SyncOutcome.dropped
  | SyncBody.getFailed rid =>
      SyncOutcome.engineCall engine (EngineCall.getFailed rid)
  | SyncBody.put rid container =>
      SyncOutcome.engineCall engine (EngineCall.put rid container)
  | SyncBody.pushQuery rid container =>
      SyncOutcome.engineCall engine (EngineCall.pushQuery rid container)
  | SyncBody.pullQuery rid (some cid) =>
      SyncOutcome.engineCall engine (EngineCall.pullQuery rid cid)
  | SyncBody.pullQuery _ none => SyncOutcome.dropped
  | SyncBody.chits rid (some votes) (some accepted) =>
      SyncOutcome.engineCall engine (EngineCall.chits rid votes accepted)
  | SyncBody.chits rid none _ =>
      SyncOutcome.engineCall engine (EngineCall.queryFailed rid)
  | SyncBody.chits rid (some _) none =>
      SyncOutcome.engineCall engine (EngineCall.queryFailed rid)
  | SyncBody.queryFailed rid =>
      SyncOutcome.engineCall engine (EngineCall.queryFailed rid)
  | SyncBody.connected => SyncOutcome.engineCall engine EngineCall.connected
  | SyncBody.connectedSubnet sid => SyncOutcome.subnetConnectorCall sid
  | SyncBody.disconnected => SyncOutcome.engineCall engine EngineCall.disconnected
  | SyncBody.unknown => SyncOutcome.unhandledErr

/-- handleSyncMsg mirrors lines 425 to 737: read the current
{EngineType, State} snapshot (passed in as cur), resolve the engine type
requested by the message, look up the engine registered for the resolved
type at the current state (dropping the message when there is none), and
dispatch the payload through the type switch. The completion callback and
metrics run in a defer and fire on every path. -/
def handleSyncMsg (em : EngineManager) (cur : EngineState)
    (msgType : EngineType) (body : SyncBody) : SyncOutcome :=
  match resolveSyncEngine em cur msgType with
  | none => SyncOutcome.dropped
  | some engine => syncMsgCall engine body

/-- AsyncBody is the payload of an asynchronous message, one constructor per
case of the executeAsyncMsg type switch. -/
inductive AsyncBody where
  | appRequest (requestId : Nat)
  | appResponse (requestId : Nat)
  | appRequestFailed (requestId : Nat)
  | appGossip
  | crossChainAppRequest (sourceChainId requestId : Nat)
  | crossChainAppResponse (sourceChainId requestId : Nat)
  | crossChainAppRequestFailed (sourceChainId requestId : Nat)
  | unknown
deriving DecidableEq, Repr

/-- executeAsyncMsg mirrors lines 752 to 845: read the current state
snapshot, look up the engine registered for the current
{EngineType, State} pair, and return an error wrapping errMissingEngine when
there is none; otherwise dispatch the payload to the matching engine method.
The unknown default case returns the unhandled-operation error. -/
def executeAsyncMsg (em : EngineManager) (state : EngineState)
    (body : AsyncBody) : Except HandlerErr (EngineRef × EngineCall) :=
  match Engines.get (em.get state.engineType) state.state with
  | none => Except.error (HandlerErr.missingEngine state.state state.engineType)
  | some engine =>
    match body with
    | AsyncBody.appRequest rid => Except.ok (engine, EngineCall.appRequest rid)
    | AsyncBody.appResponse rid => Except.ok (engine, EngineCall.appResponse rid)
    | AsyncBody.appRequestFailed rid =>
        Except.ok (engine, EngineCall.appRequestFailed rid)
    | AsyncBody.appGossip => Except.ok (engine, EngineCall.appGossip)
    | AsyncBody.crossChainAppRequest cid rid =>
        Except.ok (engine, EngineCall.crossChainAppRequest cid rid)
    | AsyncBody.crossChainAppResponse cid rid =>
        Except.ok (engine, EngineCall.crossChainAppResponse cid rid)
    | AsyncBody.crossChainAppRequestFailed cid rid =>
        Except.ok (engine, EngineCall.crossChainAppRequestFailed cid rid)
    | AsyncBody.unknown => Except.error HandlerErr.unhandledOp

/-- asyncTaskStops mirrors the worker-pool task submitted by handleAsyncMsg
lines 739 to 749: true exactly when executeAsyncMsg returned an error so the
task escalated it to StopWithError. -/
def asyncTaskStops (em : EngineManager) (state : EngineState)
    (body : AsyncBody) : Bool :=
  match executeAsyncMsg em state body with
  | Except.error _ => true
  | Except.ok _ => false

/-- ChanBody is the payload of an internally generated channel message, one
constructor per case of the handleChanMsg type switch. -/
inductive ChanBody where
  | vmMessage (notification : Nat)
  | gossipRequest
  | timeoutMsg
  | unknown
deriving DecidableEq, Repr

/-- handleChanMsg mirrors lines 848 to 931: read the current state snapshot,
look up the current engine (returning the errMissingEngine error when there
is none), then dispatch. A gossip request on a chain whose current type is
Snowman with an Avalanche engine registered for the current state first
gossips through that Avalanche engine (propagating its error, in which case
the current engine is not gossiped) and then through the current engine. The
result is the list of engine method invocations performed, in order, together
with the error the function returns. -/
def handleChanMsg (em : EngineManager) (state : EngineState) (beh : EngineBeh)
    (body : ChanBody) : List (EngineRef × EngineCall) × Option HandlerErr :=
  match Engines.get (em.get state.engineType) state.state with
  | none => ([], some (HandlerErr.missingEngine state.state state.engineType))
  | some engine =>
    match body with
    | ChanBody.vmMessage n =>
        ([(engine, EngineCall.notify n)], beh engine (EngineCall.notify n))
    | ChanBody.gossipRequest =>
        if state.engineType = EngineType.snowman then
          match Engines.get (em.get EngineType.avalanche) state.state with
          | some avalancheEngine =>
            match beh avalancheEngine EngineCall.gossip with
            | some e => ([(avalancheEngine, EngineCall.gossip)], some e)
            | none =>
                ([(avalancheEngine, EngineCall.gossip),
                  (engine, EngineCall.gossip)], beh engine EngineCall.gossip)
          | none => ([(engine, EngineCall.gossip)], beh engine EngineCall.gossip)
        else
          ([(engine, EngineCall.gossip)], beh engine EngineCall.gossip)
    | ChanBody.timeoutMsg =>
        ([(engine, EngineCall.timeout)], beh engine (EngineCall.timeout))
    | ChanBody.unknown => ([], some HandlerErr.unhandledOp)

/-- chanCallsOf collects the engine invocations performed while processing a
sequence of channel messages in a fixed state snapshot. -/
def chanCallsOf (em : EngineManager) (state : EngineState) (beh : EngineBeh)
    (bodies : List ChanBody) : List (EngineRef × EngineCall) :=
  bodies.flatMap (fun b => (handleChanMsg em state beh b).1)

/-- QEvent is an observable event of the pop loop: the expired counter
incrementing, or the completion callback of the message with the given
identity firing. -/
inductive QEvent where
  | expiredInc
  | onFinishedHandling (msgId : Nat)
deriving DecidableEq, Repr

/-- PopResult is the outcome of one popUnexpiredMsg call: the events emitted,
the expired messages dropped, and the message delivered, if any. -/
structure PopResult where
  events : List QEvent
  dropped : List Msg
  res : Option Msg
deriving DecidableEq, Repr

/-- popUnexpiredMsg mirrors lines 933 to 963 over a queue modelled as a list
(an empty queue stands for a shut-down queue whose Pop reports not ok):
repeatedly pop; when the popped message has expired, increment the expired
counter, invoke its completion callback and continue; otherwise deliver it.
Expiration uses the strict comparison clock.Time().After(expiration). -/
def popUnexpiredMsg (now : Nat) : List Msg → PopResult
  | [] => ⟨[], [], none⟩
  | m :: rest =>
    if m.expiration < now then
      ⟨QEvent.expiredInc :: QEvent.onFinishedHandling m.msgId ::
          (popUnexpiredMsg now rest).events,
        m :: (popUnexpiredMsg now rest).dropped,
        (popUnexpiredMsg now rest).res⟩
    else
      ⟨[], [], some m⟩

/-- ChainDispatch is the observable state of the sync dispatch loop: the
engine method invocations performed so far, and whether StopWithError ran
(it logs the error at fatal level and calls Stop). -/
structure ChainDispatch where
  calls : List (EngineRef × EngineCall)
  stopCalled : Bool
  fatalLogged : Bool
deriving DecidableEq, Repr

/-- syncStep is one iteration body of dispatchSync: run handleSyncMsg and
return the engine invocations performed together with the error to escalate,
if any. Engine and SubnetConnector results come from the behaviour
parameters. -/
def syncStep (em : EngineManager) (cur : EngineState) (beh : EngineBeh)
    (subnetErr : Nat → Option HandlerErr) (m : Msg) :
    List (EngineRef × EngineCall) × Option HandlerErr :=
  match handleSyncMsg em cur m.engineType m.body with
  | SyncOutcome.dropped => ([], none)
  | SyncOutcome.unhandledErr => ([], some HandlerErr.unhandledOp)
  | SyncOutcome.subnetConnectorCall sid => ([], subnetErr sid)
  | SyncOutcome.engineCall e c => ([(e, c)], beh e c)

/-- dispatchSync mirrors lines 346 to 368 with the popUnexpiredMsg loop
inlined: process queued messages in order, skipping expired ones without
invoking any engine; on the first error returned while handling a message,
escalate to StopWithError (fatal log plus Stop) and exit the loop without
dispatching anything further. -/
def dispatchSync (em : EngineManager) (cur : EngineState) (beh : EngineBeh)
    (subnetErr : Nat → Option HandlerErr) (now : Nat) :
    List Msg → ChainDispatch → ChainDispatch
  | [], s => s
  | m :: rest, s =>
    if m.expiration < now then
      dispatchSync em cur beh subnetErr now rest s
    else
      match syncStep em cur beh subnetErr m with
      | (cs, some _) =>
          { calls := s.calls ++ cs, stopCalled := true, fatalLogged := true }
      | (cs, none) =>
          dispatchSync em cur beh subnetErr now rest
            { s with calls := s.calls ++ cs }

/-- SEvent is an observable event of the shutdown routine: an engine
Shutdown invocation, an error log, the optional on-stopped callback being
scheduled, and the close of the terminal Stopped channel. -/
inductive SEvent where
  | engineShutdown (engine : EngineRef)
  | logError
  | onStoppedScheduled
  | closeClosed
deriving DecidableEq, Repr

/-- ShutdownEnv bundles what the shutdown routine reads: the engine manager,
the current state snapshot, the behaviour of engine Shutdown, and whether an
on-stopped callback was registered. -/
structure ShutdownEnv where
  em : EngineManager
  state : EngineState
  shutdownErr : EngineRef → Option HandlerErr
  hasOnStopped : Bool

/-- shutdown mirrors lines 978 to 1001: look up the current engine; when
none is registered, log an error; otherwise invoke its Shutdown, logging any
error it returns. A defer then schedules the on-stopped callback when one is
registered and closes the terminal Stopped channel; the defer runs on every
path, so shutdown always completes. -/
def shutdown (env : ShutdownEnv) : List SEvent :=
  let deferred :=
    (if env.hasOnStopped then [SEvent.onStoppedScheduled] else []) ++
      [SEvent.closeClosed]
  match Engines.get (env.em.get env.state.engineType) env.state.state with
  | none => SEvent.logError :: deferred
  | some engine =>
    match env.shutdownErr engine with
    | some _ => SEvent.engineShutdown engine :: SEvent.logError :: deferred
    | none => SEvent.engineShutdown engine :: deferred

/-- numDispatchersToClose mirrors the constant: three dispatch loops. -/
def numDispatchersToClose : Nat := 3

/-- DispatcherState is the shutdown-coordination state: the count of closed
dispatch loops and the events emitted so far. -/
structure DispatcherState where
  numDispatchersClosed : Nat
  events : List SEvent

/-- closeDispatcher mirrors lines 965 to 975: under the consensus lock,
increment the closed-loop counter; when fewer than all three loops have
reported closed, return; otherwise run the terminal shutdown routine. -/
def closeDispatcher (env : ShutdownEnv) (s : DispatcherState) :
    DispatcherState :=
  let n := s.numDispatchersClosed + 1
  if n < numDispatchersToClose then
    { s with numDispatchersClosed := n }
  else
    { numDispatchersClosed := n, events := s.events ++ shutdown env }

/-- GearResult is the observable result of selectStartingGear: the engine
returned and whether the Bootstrapper state was cleared before returning the
StateSyncer. -/
structure GearResult where
  gear : Option EngineRef
  clearedBootstrapper : Bool
deriving DecidableEq, Repr

/-- selectStartingGear mirrors lines 181 to 202: look up the engine set for
the engine type recorded in the consensus context, failing with
errNoStartingGear when there is none; return the Bootstrapper when no
StateSyncer is registered; query the StateSyncer IsEnabled (propagating its
error) and return the Bootstrapper when state sync is disabled; otherwise
clear the Bootstrapper state (propagating a clearing error) and return the
StateSyncer. IsEnabled and Clear are engine behaviour, passed as the results
they produce. -/
def selectStartingGear (em : EngineManager) (stateType : EngineType)
    (isEnabledResult : Except HandlerErr Bool)
    (clearResult : Option HandlerErr) : Except HandlerErr GearResult :=
  match em.get stateType with
  | none => Except.error HandlerErr.noStartingGear
  | some engines =>
    match engines.stateSyncer with
    | none => Except.ok ⟨engines.bootstrapper, false⟩
    | some stateSyncer =>
      match isEnabledResult with
      | Except.error e => Except.error e
      | Except.ok false => Except.ok ⟨engines.bootstrapper, false⟩
      | Except.ok true =>
        match clearResult with
        | some e => Except.error e
        | none => Except.ok ⟨some stateSyncer, true⟩

/-- HealthCheck mirrors lines 252 to 267: under the consensus lock, read the
current state snapshot; when no engine is registered for the current pair,
return an error wrapping errMissingEngine naming the state and the type;
otherwise return exactly the result of the current engine HealthCheck, whose
behaviour is the engineHealth parameter. -/
def HealthCheck (em : EngineManager) (state : EngineState)
    (engineHealth : EngineRef → Except HandlerErr Nat) :
    Except HandlerErr Nat :=
  match Engines.get (em.get state.engineType) state.state with
  | none => Except.error (HandlerErr.missingEngine state.state state.engineType)
  | some engine => engineHealth engine

/-- engineA is a concrete Avalanche consensus engine used in witnesses. -/
def engineA : EngineRef := ⟨1⟩

/-- engineS is a concrete Snowman consensus engine used in witnesses. -/
def engineS : EngineRef := ⟨2⟩

/-- bootRef is a concrete Bootstrapper engine used in witnesses. -/
def bootRef : EngineRef := ⟨3⟩

/-- syncerRef is a concrete StateSyncer engine used in witnesses. -/
def syncerRef : EngineRef := ⟨4⟩

/-- emBoth registers a Bootstrapper and a consensus engine for both engine
types, with no StateSyncer: the configuration of a chain after
linearization. -/
def emBoth : EngineManager :=
  { avalanche := some ⟨none, some bootRef, some engineA⟩,
    snowman := some ⟨none, some bootRef, some engineS⟩ }

/-- emWithSyncer registers a StateSyncer and a Bootstrapper for Avalanche
and nothing for Snowman. -/
def emWithSyncer : EngineManager :=
  { avalanche := some ⟨some syncerRef, some bootRef, none⟩, snowman := none }

/-- emEmpty registers no engines at all. -/
def emEmpty : EngineManager := ⟨none, none⟩

/-- noErrBeh is the engine behaviour in which every method succeeds. -/
def noErrBeh : EngineBeh := fun _ _ => none

/-- failBeh is the engine behaviour in which every method returns an
engine failure. -/
def failBeh : EngineBeh := fun _ _ => some (HandlerErr.engineFailure 9)

/-- noSubnetErr is the SubnetConnector behaviour that always succeeds. -/
def noSubnetErr : Nat → Option HandlerErr := fun _ => none

/-- mExp is a concrete message whose expiration has passed at time 10. -/
def mExp : Msg :=
  ⟨1, 7, MessageOp.putOp, 3, EngineType.unspecified, SyncBody.put 0 0⟩

/-- mFresh is a concrete message that is unexpired at time 10. -/
def mFresh : Msg :=
  ⟨2, 8, MessageOp.putOp, 20, EngineType.unspecified, SyncBody.put 0 0⟩

/-- mQuery is a concrete unexpired PushQuery message used in witnesses. -/
def mQuery : Msg :=
  ⟨3, 9, MessageOp.pushQueryOp, 20, EngineType.unspecified,
    SyncBody.pushQuery 1 2⟩

end Handler

namespace Handler

/-- C9: every pushed message whose operation kind is in the async set
{AppRequest, AppRequestFailed, AppResponse, AppGossip, CrossChainAppRequest,
CrossChainAppRequestFailed, CrossChainAppResponse} is enqueued into the async
queue and never the sync queue, and every other kind is enqueued into the
sync queue and never the async queue; the async set is exactly the stated
list of operation kinds. -/
theorem push_routes_by_op (s : PushState) (m : Msg) :
    (Push s m).asyncQueue =
      (if isAsyncOp m.op then s.asyncQueue ++ [m] else s.asyncQueue) ∧
    (Push s m).syncQueue =
      (if isAsyncOp m.op then s.syncQueue else s.syncQueue ++ [m]) ∧
    isAsyncOp m.op =
      [MessageOp.appRequestOp, MessageOp.appRequestFailedOp,
        MessageOp.appResponseOp, MessageOp.appGossipOp,
        MessageOp.crossChainAppRequestOp, MessageOp.crossChainAppRequestFailedOp,
        MessageOp.crossChainAppResponseOp].contains m.op := by
  refine ⟨?_, ?_, ?_⟩
  · by_cases h : isAsyncOp m.op <;> simp [Push, h]
  · by_cases h : isAsyncOp m.op <;> simp [Push, h]
  · cases h : m.op <;> simp [isAsyncOp, h, List.contains]

/-- Helper: the shutdown routine closes the terminal Stopped channel exactly
once on every path, including when no current engine is found or the engine
Shutdown returns an error. -/
theorem shutdown_closes_once (env : ShutdownEnv) :
    (shutdown env).count SEvent.closeClosed = 1 := by
  rcases hE : Engines.get (env.em.get env.state.engineType) env.state.state
    with _ | e
  · cases hO : env.hasOnStopped <;> simp [shutdown, hE, hO]
  · rcases hS : env.shutdownErr e with _ | e2 <;>
      cases hO : env.hasOnStopped <;> simp [shutdown, hE, hS, hO]

/-- C2: once the three dispatch loops are running, the terminal shutdown
routine runs only after all three have reported closed through
closeDispatcher (the first two calls emit no events; the third emits exactly
the shutdown routine), and the terminal Stopped channel is closed exactly
once on every shutdown path, including when the engine Shutdown errors or no
current engine can be found. -/
theorem dispatchers_close_then_shutdown_once (env : ShutdownEnv) :
    (closeDispatcher env ⟨0, []⟩).events = [] ∧
    (closeDispatcher env (closeDispatcher env ⟨0, []⟩)).events = [] ∧
    (closeDispatcher env (closeDispatcher env
        (closeDispatcher env ⟨0, []⟩))).events = shutdown env ∧
    (shutdown env).count SEvent.closeClosed = 1 := by
  refine ⟨?_, ?_, ?_, shutdown_closes_once env⟩
  · simp [closeDispatcher, numDispatchersToClose]
  · simp [closeDispatcher, numDispatchersToClose]
  · simp [closeDispatcher, numDispatchersToClose]

/-- C3: selectStartingGear returns the Bootstrapper when no StateSyncer is
registered for the engine type recorded in the consensus context; returns
the StateSyncer after clearing the Bootstrapper state when a StateSyncer is
registered and reports itself enabled; and fails with the NoStartingGear
error when the EngineManager has no engines at all for that type. -/
theorem selectStartingGear_spec (em1 em2 em3 : EngineManager)
    (t : EngineType) (eng1 eng2 : Engines) (ss : EngineRef)
    (en : Except HandlerErr Bool) (cl : Option HandlerErr)
    (h1 : em1.get t = some eng1) (h1b : eng1.stateSyncer = none)
    (h2 : em2.get t = some eng2) (h2b : eng2.stateSyncer = some ss)
    (h3 : em3.get t = none) :
    selectStartingGear em1 t en cl = Except.ok ⟨eng1.bootstrapper, false⟩ ∧
    selectStartingGear em2 t (Except.ok true) none =
      Except.ok ⟨some ss, true⟩ ∧
    selectStartingGear em3 t en cl = Except.error HandlerErr.noStartingGear := by
  refine ⟨?_, ?_, ?_⟩
  · simp [selectStartingGear, h1, h1b]
  · simp [selectStartingGear, h2, h2b]
  · simp [selectStartingGear, h3]

/-- Witness for C3 at concrete engine managers. -/
theorem selectStartingGear_spec_witness :
    selectStartingGear emBoth EngineType.avalanche (Except.ok true) none =
      Except.ok ⟨some bootRef, false⟩ ∧
    selectStartingGear emWithSyncer EngineType.avalanche (Except.ok true) none =
      Except.ok ⟨some syncerRef, true⟩ ∧
    selectStartingGear emEmpty EngineType.avalanche (Except.ok true) none =
      Except.error HandlerErr.noStartingGear :=
  selectStartingGear_spec emBoth emWithSyncer emEmpty EngineType.avalanche
    ⟨none, some bootRef, some engineA⟩ ⟨some syncerRef, some bootRef, none⟩
    syncerRef (Except.ok true) none rfl rfl rfl rfl rfl

/-- C4: for every response-kind sync message (AcceptedStateSummary,
AcceptedFrontier, Accepted, Chits) whose payload fails to decode or
validate, handleSyncMsg invokes the matching engine failed callback
(GetAcceptedStateSummaryFailed, GetAcceptedFrontierFailed, GetAcceptedFailed,
QueryFailed) instead of silently dropping the message. -/
theorem response_invalid_payload_failed_callback (em : EngineManager)
    (cur : EngineState) (t : EngineType) (e : EngineRef) (rid : Nat)
    (v : List Nat) (acc : Option (List Nat))
    (h : resolveSyncEngine em cur t = some e) :
    handleSyncMsg em cur t (SyncBody.acceptedStateSummary rid none) =
      SyncOutcome.engineCall e (EngineCall.getAcceptedStateSummaryFailed rid) ∧
    handleSyncMsg em cur t (SyncBody.acceptedFrontier rid none) =
      SyncOutcome.engineCall e (EngineCall.getAcceptedFrontierFailed rid) ∧
    handleSyncMsg em cur t (SyncBody.accepted rid none) =
      SyncOutcome.engineCall e (EngineCall.getAcceptedFailed rid) ∧
    handleSyncMsg em cur t (SyncBody.chits rid none acc) =
      SyncOutcome.engineCall e (EngineCall.queryFailed rid) ∧
    handleSyncMsg em cur t (SyncBody.chits rid (some v) none) =
      SyncOutcome.engineCall e (EngineCall.queryFailed rid) := by
  refine ⟨?_, ?_, ?_, ?_, ?_⟩ <;> simp [handleSyncMsg, h, syncMsgCall]

/-- Witness for C4 at a concrete engine manager and message fields. -/
theorem response_invalid_payload_failed_callback_witness :
    handleSyncMsg emBoth ⟨EngineType.snowman, SnowState.normalOp⟩
        EngineType.snowman (SyncBody.acceptedStateSummary 5 none) =
      SyncOutcome.engineCall engineS (EngineCall.getAcceptedStateSummaryFailed 5) ∧
    handleSyncMsg emBoth ⟨EngineType.snowman, SnowState.normalOp⟩
        EngineType.snowman (SyncBody.acceptedFrontier 5 none) =
      SyncOutcome.engineCall engineS (EngineCall.getAcceptedFrontierFailed 5) ∧
    handleSyncMsg emBoth ⟨EngineType.snowman, SnowState.normalOp⟩
        EngineType.snowman (SyncBody.accepted 5 none) =
      SyncOutcome.engineCall engineS (EngineCall.getAcceptedFailed 5) ∧
    handleSyncMsg emBoth ⟨EngineType.snowman, SnowState.normalOp⟩
        EngineType.snowman (SyncBody.chits 5 none none) =
      SyncOutcome.engineCall engineS (EngineCall.queryFailed 5) ∧
    handleSyncMsg emBoth ⟨EngineType.snowman, SnowState.normalOp⟩
        EngineType.snowman (SyncBody.chits 5 (some [1]) none) =
      SyncOutcome.engineCall engineS (EngineCall.queryFailed 5) :=
  response_invalid_payload_failed_callback emBoth
    ⟨EngineType.snowman, SnowState.normalOp⟩ EngineType.snowman engineS 5
    [1] none (by decide)

/-- C5: if an engine method invoked by the sync dispatch loop returns an
error, the loop immediately escalates to StopWithError (logging the error as
fatal and calling Stop) and exits; the resulting state is independent of the
remaining queued messages, so no further message is dispatched to any engine
from that chain afterward. -/
theorem sync_error_stops_chain (em : EngineManager) (cur : EngineState)
    (beh : EngineBeh) (subnetErr : Nat → Option HandlerErr) (now : Nat)
    (m : Msg) (ys : List Msg) (s : ChainDispatch) (eng : EngineRef)
    (c : EngineCall) (err : HandlerErr)
    (hexp : ¬ m.expiration < now)
    (hcall : handleSyncMsg em cur m.engineType m.body =
      SyncOutcome.engineCall eng c)
    (herr : beh eng c = some err) :
    dispatchSync em cur beh subnetErr now (m :: ys) s =
      { calls := s.calls ++ [(eng, c)], stopCalled := true,
        fatalLogged := true } := by
  simp [dispatchSync, hexp, syncStep, hcall, herr]

/-- Witness for C5: a failing engine stops the chain before the rest of the
queue is dispatched. -/
theorem sync_error_stops_chain_witness :
    dispatchSync emBoth ⟨EngineType.snowman, SnowState.normalOp⟩ failBeh
        noSubnetErr 10 [mQuery, mFresh] ⟨[], false, false⟩ =
      { calls := [(engineS, EngineCall.pushQuery 1 2)], stopCalled := true,
        fatalLogged := true } :=
  sync_error_stops_chain emBoth ⟨EngineType.snowman, SnowState.normalOp⟩
    failBeh noSubnetErr 10 mQuery [mFresh] ⟨[], false, false⟩ engineS
    (EngineCall.pushQuery 1 2) (HandlerErr.engineFailure 9) (by decide)
    (by decide) (by decide)

/-- C6: the engine-type resolution rule for sync messages: an explicit
Snowman request while the current type is Avalanche is dropped without
error; an explicit Avalanche or Snowman request (outside that drop case) is
honored, and when an engine of the requested type is registered for the
current state the message resolves to exactly that engine; any other
requested value (unspecified or unrecognized) defaults to the current engine
type. -/
theorem sync_engine_type_resolution (cur : EngineState) (t : EngineType)
    (n : Nat) (em : EngineManager) (e : EngineRef) (body : SyncBody)
    (s : SnowState)
    (ht : t = EngineType.avalanche ∨ t = EngineType.snowman)
    (hnd : ¬ (t = EngineType.snowman ∧ cur.engineType = EngineType.avalanche))
    (hreg : Engines.get (em.get t) cur.state = some e) :
    resolveEngineType EngineType.snowman EngineType.avalanche = none ∧
    handleSyncMsg em ⟨EngineType.avalanche, s⟩ EngineType.snowman body =
      SyncOutcome.dropped ∧
    resolveEngineType t cur.engineType = some t ∧
    resolveSyncEngine em cur t = some e ∧
    resolveEngineType EngineType.unspecified cur.engineType =
      some cur.engineType ∧
    resolveEngineType (EngineType.other n) cur.engineType =
      some cur.engineType := by
  have h3 : resolveEngineType t cur.engineType = some t := by
    rcases ht with rfl | rfl
    · simp [resolveEngineType]
    · have hcur : cur.engineType ≠ EngineType.avalanche :=
        fun hc => hnd ⟨rfl, hc⟩
      simp [resolveEngineType, hcur]
  refine ⟨by simp [resolveEngineType],
    by simp [handleSyncMsg, resolveSyncEngine, resolveEngineType],
    h3, ?_, ?_, ?_⟩
  · simp [resolveSyncEngine, h3, hreg]
  · simp [resolveEngineType]
  · simp [resolveEngineType]

/-- Witness for C6: an explicit Avalanche request on a chain currently
running Snowman resolves to the registered Avalanche engine. -/
theorem sync_engine_type_resolution_witness :
    resolveEngineType EngineType.snowman EngineType.avalanche = none ∧
    handleSyncMsg emBoth ⟨EngineType.avalanche, SnowState.normalOp⟩
        EngineType.snowman SyncBody.connected = SyncOutcome.dropped ∧
    resolveEngineType EngineType.avalanche EngineType.snowman =
      some EngineType.avalanche ∧
    resolveSyncEngine emBoth ⟨EngineType.snowman, SnowState.normalOp⟩
        EngineType.avalanche = some engineA ∧
    resolveEngineType EngineType.unspecified EngineType.snowman =
      some EngineType.snowman ∧
    resolveEngineType (EngineType.other 5) EngineType.snowman =
      some EngineType.snowman :=
  sync_engine_type_resolution ⟨EngineType.snowman, SnowState.normalOp⟩
    EngineType.avalanche 5 emBoth engineA SyncBody.connected
    SnowState.normalOp (Or.inl rfl) (by decide) (by decide)

/-- C7 counterexample: on a linearized chain, the old-type Avalanche gossip
happens on every gossip request while the state persists, not once: two
consecutive gossip requests in the same linearized state each gossip through
the Avalanche engine. -/
theorem linearized_gossip_not_one_time_counterexample :
    (chanCallsOf emBoth ⟨EngineType.snowman, SnowState.normalOp⟩ noErrBeh
        [ChanBody.gossipRequest, ChanBody.gossipRequest]).count
        (engineA, EngineCall.gossip) = 2 ∧
    ¬ (chanCallsOf emBoth ⟨EngineType.snowman, SnowState.normalOp⟩ noErrBeh
        [ChanBody.gossipRequest, ChanBody.gossipRequest]).count
        (engineA, EngineCall.gossip) ≤ 1 := by
  decide

/-- C7 (amended): when a gossip request fires on a chain whose current
engine type is Snowman and an Avalanche engine is registered for the current
lifecycle state, the handler gossips the old Avalanche engine frontier in
addition to, and before, invoking the current engine Gossip; this happens on
every gossip request while that state persists (a transitional compatibility
behaviour slated for removal, not a literally one-time action). -/
theorem linearized_gossip_order (em : EngineManager) (st : SnowState)
    (beh : EngineBeh) (av cur : EngineRef)
    (hav : Engines.get (em.get EngineType.avalanche) st = some av)
    (hcur : Engines.get (em.get EngineType.snowman) st = some cur)
    (hbeh : beh av EngineCall.gossip = none) :
    handleChanMsg em ⟨EngineType.snowman, st⟩ beh ChanBody.gossipRequest =
      ([(av, EngineCall.gossip), (cur, EngineCall.gossip)],
        beh cur EngineCall.gossip) := by
  simp [handleChanMsg, hav, hcur, hbeh]

/-- Witness for C7 at the concrete linearized engine manager. -/
theorem linearized_gossip_order_witness :
    handleChanMsg emBoth ⟨EngineType.snowman, SnowState.normalOp⟩ noErrBeh
        ChanBody.gossipRequest =
      ([(engineA, EngineCall.gossip), (engineS, EngineCall.gossip)], none) :=
  linearized_gossip_order emBoth SnowState.normalOp noErrBeh engineA engineS
    rfl rfl rfl

/-- C1 counterexample: an async message arriving while no engine is
registered for the current pair is not dropped: executeAsyncMsg returns the
errMissingEngine error and the worker task escalates it to StopWithError,
so treating the situation as non-fatal fails at this concrete input. -/
theorem missing_engine_async_fatal_counterexample :
    executeAsyncMsg emEmpty ⟨EngineType.snowman, SnowState.normalOp⟩
        (AsyncBody.appRequest 0) =
      Except.error (HandlerErr.missingEngine SnowState.normalOp
        EngineType.snowman) ∧
    asyncTaskStops emEmpty ⟨EngineType.snowman, SnowState.normalOp⟩
        (AsyncBody.appRequest 0) = true ∧
    ¬ asyncTaskStops emEmpty ⟨EngineType.snowman, SnowState.normalOp⟩
        (AsyncBody.appRequest 0) = false ∧
    (handleChanMsg emEmpty ⟨EngineType.snowman, SnowState.normalOp⟩ noErrBeh
        ChanBody.timeoutMsg).2 =
      some (HandlerErr.missingEngine SnowState.normalOp EngineType.snowman) :=
  ⟨rfl, rfl, by decide, rfl⟩

/-- C1 (amended): every dispatched message resolves the current
{EngineType, EngineLifecycleState} pair at dispatch time; when no engine is
registered for the resolved pair, a sync message is dropped (logged,
completion invoked) without error, while an async or chan message instead
produces an error wrapping errMissingEngine, which the async worker task and
the chan dispatch loop escalate to StopWithError (fatal). -/
theorem missing_engine_dispatch (em : EngineManager) (cur : EngineState)
    (t : EngineType) (body : SyncBody) (abody : AsyncBody) (cbody : ChanBody)
    (beh : EngineBeh)
    (hsync : resolveSyncEngine em cur t = none)
    (hcur : Engines.get (em.get cur.engineType) cur.state = none) :
    handleSyncMsg em cur t body = SyncOutcome.dropped ∧
    executeAsyncMsg em cur abody =
      Except.error (HandlerErr.missingEngine cur.state cur.engineType) ∧
    asyncTaskStops em cur abody = true ∧
    handleChanMsg em cur beh cbody =
      ([], some (HandlerErr.missingEngine cur.state cur.engineType)) := by
  refine ⟨?_, ?_, ?_, ?_⟩
  · simp [handleSyncMsg, hsync]
  · simp [executeAsyncMsg, hcur]
  · simp [asyncTaskStops, executeAsyncMsg, hcur]
  · simp [handleChanMsg, hcur]

/-- Witness for C1 at the empty engine manager. -/
theorem missing_engine_dispatch_witness :
    handleSyncMsg emEmpty ⟨EngineType.snowman, SnowState.normalOp⟩
        EngineType.unspecified (SyncBody.put 0 0) = SyncOutcome.dropped ∧
    executeAsyncMsg emEmpty ⟨EngineType.snowman, SnowState.normalOp⟩
        (AsyncBody.appGossip) =
      Except.error (HandlerErr.missingEngine SnowState.normalOp
        EngineType.snowman) ∧
    asyncTaskStops emEmpty ⟨EngineType.snowman, SnowState.normalOp⟩
        (AsyncBody.appGossip) = true ∧
    handleChanMsg emEmpty ⟨EngineType.snowman, SnowState.normalOp⟩ noErrBeh
        ChanBody.timeoutMsg =
      ([], some (HandlerErr.missingEngine SnowState.normalOp
        EngineType.snowman)) :=
  missing_engine_dispatch emEmpty ⟨EngineType.snowman, SnowState.normalOp⟩
    EngineType.unspecified (SyncBody.put 0 0) AsyncBody.appGossip
    ChanBody.timeoutMsg noErrBeh (by decide) (by decide)

/-- Helper: every message dropped by the pop loop had expired. -/
theorem popUnexpired_dropped_expired (now : Nat) :
    ∀ q : List Msg, ∀ m ∈ (popUnexpiredMsg now q).dropped,
      m.expiration < now := by
  intro q
  induction q with
  | nil =>
    intro m hm
    simp [popUnexpiredMsg] at hm
  | cons a rest ih =>
    intro m hm
    by_cases h : a.expiration < now
    · simp [popUnexpiredMsg, h] at hm
      rcases hm with rfl | hm
      · exact h
      · exact ih m hm
    · simp [popUnexpiredMsg, h] at hm

/-- Helper: the message delivered by the pop loop is unexpired. -/
theorem popUnexpired_res_fresh (now : Nat) :
    ∀ q : List Msg, ∀ m : Msg, (popUnexpiredMsg now q).res = some m →
      ¬ m.expiration < now := by
  intro q
  induction q with
  | nil =>
    intro m hm
    simp [popUnexpiredMsg] at hm
  | cons a rest ih =>
    intro m hm
    by_cases h : a.expiration < now
    · simp [popUnexpiredMsg, h] at hm
      exact ih m hm
    · simp [popUnexpiredMsg, h] at hm
      subst hm
      exact h

/-- Helper: the expired counter increments exactly once per dropped
message. -/
theorem popUnexpired_expired_count (now : Nat) :
    ∀ q : List Msg,
      ((popUnexpiredMsg now q).events).count QEvent.expiredInc =
        (popUnexpiredMsg now q).dropped.length := by
  intro q
  induction q with
  | nil => simp [popUnexpiredMsg]
  | cons a rest ih =>
    by_cases h : a.expiration < now
    · simp [popUnexpiredMsg, h, List.count_cons, ih]
    · simp [popUnexpiredMsg, h]

/-- Helper: the completion callback of identity k fires exactly as many
times as messages with identity k are dropped. -/
theorem popUnexpired_finished_count (now k : Nat) :
    ∀ q : List Msg,
      ((popUnexpiredMsg now q).events).count (QEvent.onFinishedHandling k) =
        ((popUnexpiredMsg now q).dropped.map Msg.msgId).count k := by
  intro q
  induction q with
  | nil => simp [popUnexpiredMsg]
  | cons a rest ih =>
    by_cases h : a.expiration < now
    · simp [popUnexpiredMsg, h, List.count_cons, ih]
    · simp [popUnexpiredMsg, h]

/-- C8: for every message popped whose Expiration has already passed at pop
time, the message is never delivered (only expired messages are dropped and
the delivered message, when any, is unexpired), its completion callback
fires exactly once, and the expired counter increments by exactly one for
that message (the counter total equals the number of dropped messages, and
the completion event of each message identity fires once per dropped message
carrying it). -/
theorem pop_expired_drop_spec (now : Nat) (q : List Msg) (d p : Msg) (k : Nat)
    (hd : d ∈ (popUnexpiredMsg now q).dropped)
    (hp : (popUnexpiredMsg now q).res = some p) :
    d.expiration < now ∧
    ¬ p.expiration < now ∧
    ((popUnexpiredMsg now q).events).count QEvent.expiredInc =
      (popUnexpiredMsg now q).dropped.length ∧
    ((popUnexpiredMsg now q).events).count (QEvent.onFinishedHandling k) =
      ((popUnexpiredMsg now q).dropped.map Msg.msgId).count k :=
  ⟨popUnexpired_dropped_expired now q d hd,
    popUnexpired_res_fresh now q p hp,
    popUnexpired_expired_count now q,
    popUnexpired_finished_count now k q⟩

/-- Witness for C8: a queue holding one expired and one fresh message. -/
theorem pop_expired_drop_spec_witness :
    mExp.expiration < 10 ∧
    ¬ mFresh.expiration < 10 ∧
    ((popUnexpiredMsg 10 [mExp, mFresh]).events).count QEvent.expiredInc =
      (popUnexpiredMsg 10 [mExp, mFresh]).dropped.length ∧
    ((popUnexpiredMsg 10 [mExp, mFresh]).events).count
        (QEvent.onFinishedHandling 7) =
      ((popUnexpiredMsg 10 [mExp, mFresh]).dropped.map Msg.msgId).count 7 :=
  pop_expired_drop_spec 10 [mExp, mFresh] mExp mFresh 7 (by decide) (by decide)

/-- C10: HealthCheck, after reading the current lifecycle state under the
consensus lock, returns the errMissingEngine error naming the state and the
type when no engine is registered for the current pair, and otherwise
returns exactly the result of the current engine HealthCheck. -/
theorem healthCheck_missing_engine_spec (em1 em2 : EngineManager)
    (st : EngineState) (engineHealth : EngineRef → Except HandlerErr Nat)
    (e : EngineRef)
    (h1 : Engines.get (em1.get st.engineType) st.state = none)
    (h2 : Engines.get (em2.get st.engineType) st.state = some e) :
    HealthCheck em1 st engineHealth =
      Except.error (HandlerErr.missingEngine st.state st.engineType) ∧
    HealthCheck em2 st engineHealth = engineHealth e := by
  constructor
  · simp [HealthCheck, h1]
  · simp [HealthCheck, h2]

/-- Witness for C10 at concrete engine managers. -/
theorem healthCheck_missing_engine_spec_witness :
    HealthCheck emEmpty ⟨EngineType.snowman, SnowState.normalOp⟩
        (fun e => Except.ok e.refId) =
      Except.error (HandlerErr.missingEngine SnowState.normalOp
        EngineType.snowman) ∧
    HealthCheck emBoth ⟨EngineType.snowman, SnowState.normalOp⟩
        (fun e => Except.ok e.refId) = Except.ok engineS.refId :=
  healthCheck_missing_engine_spec emEmpty emBoth
    ⟨EngineType.snowman, SnowState.normalOp⟩ (fun e => Except.ok e.refId)
    engineS (by decide) (by decide)

end Handler
